import Mathlib

/-!
# Verification of `mete_sads.py` (white-etal-2012-ecology)

Shallow embedding of the per-site SAD-fitting pipeline `run_test`, and of the
abundance-class counter `rare_sp_count`, from `src/mete_sads.py`.

External collaborators (`mete.get_mete_sad`, `md.logser_ll`, `md.pln_ll`,
`np.log`, `np.sqrt`-via-`np.std`, `exp` inside the Akaike-weight utility) are
not part of this repository; they are modelled as parameters gathered in an
`Externals` structure.  The two `weestats` utilities (`AICc`, `aic_weight`)
are also external; the specification states their exact formulas, so they are
modelled from the spec below.
-/

/-- One raw input record: columns `site, year, sp, ab` of the input file. -/
structure AbundanceRecord where
  site : String
  year : Int
  sp : String
  ab : Int
deriving DecidableEq, Repr

/-- Output file 1 row: `site, observed abundance, predicted abundance`
(one row of `np.column_stack((subsites, subab, pred))`). -/
structure SpeciesLevelRow where
  site : String
  obs : Int
  pred : Int
deriving DecidableEq, Repr

/-- Output file 2 row: `site, S, N, p, weight`
(the single row `np.column_stack((usites[i], S, N, p, weight))`). -/
structure SiteLevelRow where
  site : String
  S : Nat
  N : Int
  p : ℚ
  weight : ℚ
deriving DecidableEq, Repr

/-- The external collaborators used by `run_test`, treated as black boxes
accessed through their documented contracts.  The fallible ones
(`get_mete_sad`, `logser_ll`, `pln_ll`) return `Except` so that a failure of
an external call can be modelled. -/
structure Externals where
  /-- `mete.get_mete_sad(S, N)`: predicted abundances and `p = e ** -lambda_sad`. -/
  get_mete_sad : Nat → Int → Except String (List Int × ℚ)
  /-- `md.logser_ll(data, p)`. -/
  logser_ll : List Int → ℚ → Except String ℚ
  /-- `md.pln_ll(mu, sigma, data)`. -/
  pln_ll : ℚ → ℚ → List Int → Except String ℚ
  /-- `np.log` applied to an abundance. -/
  log : Int → ℚ
  /-- square root used by `np.std`. -/
  sqrt : ℚ → ℚ
  /-- the exponential used inside `weestats.aic_weight`. -/
  exp : ℚ → ℚ

/-- `np.sort(subab)[::-1]`: abundances sorted into descending order. -/
def sortDesc (l : List Int) : List Int :=
  (l.insertionSort (· ≤ ·)).reverse

/-- Modelled from the spec: `weestats.AICc` is not under `src/`; the spec
gives the denominator `S − k − 1` explicitly. -/
def AICc_denom (k n : ℚ) : ℚ := n - k - 1

/-- Modelled from the spec: `weestats.AICc(k, loglik, n)` is not under
`src/`; the spec gives the exact formula
`AICc = -2·logLikelihood + 2·k + (2·k·(k+1))/(S−k−1)`. -/
def AICc (k loglik n : ℚ) : ℚ :=
  -2 * loglik + 2 * k + (2 * k * (k + 1)) / AICc_denom k n

/-- Modelled from the spec: `weestats.aic_weight(aicc_a, aicc_b, n, cutoff)`
is not under `src/`; the spec gives
`weight = 1 / (1 + exp(-0.5·(AICc_logser − AICc_pln)))`, with a sentinel `-1`
when `n` is below the weight-validity cutoff.  The exponential is passed in
as `e`. -/
def aic_weight (e : ℚ → ℚ) (aicc_a aicc_b : ℚ) (n cutoff : Nat) : ℚ :=
  if n < cutoff then -1
  else 1 / (1 + e (-(1/2) * (aicc_a - aicc_b)))

/-- The body of the per-site loop of `run_test` (lines 48–66): given one
site's abundance list, either skip the site (`.ok none`, when `S ≤ cutoff`),
fail because an external call failed (`.error`), or produce the `S`
species-level rows and the single site-level row. -/
def fit_site (ext : Externals) (site : String) (abds : List Int)
    (cutoff : Nat) : Except String (Option (List SpeciesLevelRow × SiteLevelRow)) :=
  let S := abds.length
  let N := abds.sum
  if S > cutoff then
    match ext.get_mete_sad S N with
    | .error e => .error e
    | .ok (pred, p) =>
      let subab := sortDesc abds
      match ext.logser_ll subab p with
      | .error e => .error e
      | .ok L_logser =>
        let logs := subab.map ext.log
        let mu := logs.sum / (S : ℚ)
        let sigma := ext.sqrt ((logs.map (fun x => (x - mu) ^ 2)).sum / (S : ℚ))
        match ext.pln_ll mu sigma subab with
        | .error e => .error e
        | .ok L_pln =>
          let k1 : ℚ := 1
          let k2 : ℚ := 2
          let AICc_logser := AICc k1 L_logser (S : ℚ)
          let AICc_pln := AICc k2 L_pln (S : ℚ)
          let weight := aic_weight ext.exp AICc_logser AICc_pln S 4
          let rows := (subab.zip pred).map
            (fun op => { site := site, obs := op.1, pred := op.2 : SpeciesLevelRow })
          .ok (some (rows,
            { site := site, S := S, N := N, p := p, weight := weight }))
  else .ok none

/-- The abundances of one site, in input order
(`ifile["ab"][ifile["site"] == usites[i]]`). -/
def siteAbs (records : List AbundanceRecord) (u : String) : List Int :=
  (records.filter (fun r => r.site = u)).map (fun r => r.ab)

/-- Lexicographic order on site identifiers (by code points), the order
`np.sort` uses on the byte strings of the `site` column. -/
def strLe (a b : String) : Prop := a.data < b.data ∨ a.data = b.data

instance : DecidableRel strLe := fun x y =>
  inferInstanceAs (Decidable (x.data < y.data ∨ x.data = y.data))

/-- `np.sort(list(set(ifile["site"])))`: the distinct site identifiers in
sorted order. -/
def usites (records : List AbundanceRecord) : List String :=
  ((records.map (fun r => r.site)).dedup).insertionSort strLe

/-- The site loop of `run_test` over an explicit list of site ids.  A site
whose external calls fail aborts the loop (the Python loop has no handler:
the exception propagates), keeping the rows already emitted and recording
the error; `.ok none` sites are skipped silently. -/
def runSites (ext : Externals) (records : List AbundanceRecord)
    (cutoff : Nat) : List String → List SpeciesLevelRow × List SiteLevelRow × Option String
  | [] => ([], [], none)
  | u :: rest =>
    match fit_site ext u (siteAbs records u) cutoff with
    | .error e => ([], [], some e)
    | .ok none => runSites ext records cutoff rest
    | .ok (some (r1, r2)) =>
      let rec' := runSites ext records cutoff rest
      (r1 ++ rec'.1, r2 :: rec'.2.1, rec'.2.2)

/-- `run_test` on already-loaded records: loop over the sorted distinct
sites.  Returns the species-level rows, the site-level rows, and the error
that aborted the run, if any. -/
def run_test (ext : Externals) (records : List AbundanceRecord)
    (cutoff : Nat) : List SpeciesLevelRow × List SiteLevelRow × Option String :=
  runSites ext records cutoff (usites records)

/-- Modelled from the spec: the input parsing is done by `np.genfromtxt`
(an external library call, not code under `src/`); the spec's Loader
contract says it fails with a `ParseError` if any row has the wrong column
count or a non-integer abundance/year field, with no row filtering. -/
inductive ParseError where
  | wrongColumnCount (row : List String)
  | badField (row : List String)
deriving DecidableEq, Repr

/-- Value of a decimal digit character, `none` on a non-digit. -/
def digitVal (c : Char) : Option Nat :=
  if c.isDigit then some (c.toNat - 48) else none

/-- Read a nonnegative integer from a digit string; `none` if any
character is not a digit. -/
def natOfDigits (cs : List Char) : Option Nat :=
  cs.foldl (fun acc c =>
    match acc, digitVal c with
    | some n, some d => some (10 * n + d)
    | _, _ => none) (some 0)

/-- Modelled from the spec: decimal-integer parsing of a year/abundance
field (an optional leading minus sign followed by digits); `none` on a
non-integer field. -/
def intOfString (s : String) : Option Int :=
  match s.data with
  | [] => none
  | '-' :: rest =>
    match rest with
    | [] => none
    | _ => (natOfDigits rest).map (fun n => -(n : Int))
  | cs => (natOfDigits cs).map (fun n => (n : Int))

/-- Modelled from the spec: parse one delimited row with schema
`site, year, sp, ab` (year and ab integers). -/
def parseRecord (row : List String) : Except ParseError AbundanceRecord :=
  match row with
  | [site, year, sp, ab] =>
    match intOfString year, intOfString ab with
    | some y, some a => .ok { site := site, year := y, sp := sp, ab := a }
    | _, _ => .error (.badField row)
  | _ => .error (.wrongColumnCount row)

/-- Modelled from the spec: the Loader parses every row; the first malformed
row aborts the load with a `ParseError`. -/
def load : List (List String) → Except ParseError (List AbundanceRecord)
  | [] => .ok []
  | row :: rest =>
    match parseRecord row with
    | .error e => .error e
    | .ok r =>
      match load rest with
      | .error e => .error e
      | .ok rs => .ok (r :: rs)

/-- A row the spec's Loader contract calls malformed: wrong column count, or
a non-integer year/abundance field. -/
def malformedRow (row : List String) : Bool :=
  match row with
  | [_, year, _, ab] => (intOfString year).isNone || (intOfString ab).isNone
  | _ => true

/-- The whole pipeline: load the input rows, then run the per-site fitter.
Loading happens before any output row is produced (in the source,
`np.genfromtxt` at line 35 runs before the site loop), so a `ParseError`
yields no output rows at all. -/
def run_pipeline (ext : Externals) (input : List (List String))
    (cutoff : Nat) :
    Except ParseError (List SpeciesLevelRow × List SiteLevelRow × Option String) :=
  match load input with
  | .error e => .error e
  | .ok records => .ok (run_test ext records cutoff)

/-- The per-site body of `rare_sp_count` (lines 158–169): dispatch on the
abundance-class string; the predicted and observed counts for that class.
For a string outside the four known classes the Python code never assigns
`subpred`/`subobs` and the subsequent `append` raises, modelled as `none`
(`max` of an empty group also raises, likewise `none`). -/
def rare_sp_count_site (abundance_class : String) (pred obs : List Int) :
    Option (Int × Int) :=
  if abundance_class = "singleton" then
    some (((pred.filter (fun x => x = 1)).length : Int),
          ((obs.filter (fun x => x = 1)).length : Int))
  else if abundance_class = "doubleton" then
    some (((pred.filter (fun x => x = 2)).length : Int),
          ((obs.filter (fun x => x = 2)).length : Int))
  else if abundance_class = "dominant" then
    match pred.max?, obs.max? with
    | some mp, some mo => some (mp, mo)
    | _, _ => none
  else if abundance_class = "rare" then
    some (((pred.filter (fun x => x ≤ 10)).length : Int),
          ((obs.filter (fun x => x ≤ 10)).length : Int))
  else none

/-- `list(set(site))` of `rare_sp_count`: the distinct site ids of the
species-level file (the Python set order is unspecified; first-occurrence
order is used here). -/
def rare_usites (rows : List SpeciesLevelRow) : List String :=
  (rows.map (fun r => r.site)).dedup

/-- The site loop of `rare_sp_count`: per site, collect the class counts;
a failure of the per-site body (unmatched class string) aborts the whole
call. -/
def rareLoop (c : String) (rows : List SpeciesLevelRow) :
    List String → Option (List Int × List Int)
  | [] => some ([], [])
  | u :: rest =>
    let pred := (rows.filter (fun r => r.site = u)).map (fun r => r.pred)
    let obs := (rows.filter (fun r => r.site = u)).map (fun r => r.obs)
    match rare_sp_count_site c pred obs with
    | none => none
    | some (sp, so) =>
      match rareLoop c rows rest with
      | none => none
      | some (ps, os) => some (sp :: ps, so :: os)

/-- `rare_sp_count` on already-loaded species-level rows: the per-class
predicted and observed species counts, one entry per distinct site. -/
def rare_sp_count (c : String) (rows : List SpeciesLevelRow) :
    Option (List Int × List Int) :=
  rareLoop c rows (rare_usites rows)

/-! ## Helper lemmas -/

lemma sortDesc_sorted (l : List Int) : (sortDesc l).Sorted (· ≥ ·) := by
  unfold sortDesc
  rw [List.Sorted, List.pairwise_reverse]
  exact List.sorted_insertionSort (fun a b : ℤ => a ≤ b) l

lemma sortDesc_perm (l : List Int) : (sortDesc l).Perm l := by
  unfold sortDesc
  exact (List.reverse_perm _).trans (List.perm_insertionSort _ l)

lemma sortDesc_length (l : List Int) : (sortDesc l).length = l.length :=
  (sortDesc_perm l).length_eq

lemma aic_weight_sentinel (e : ℚ → ℚ) (a b : ℚ) (n cutoff : Nat)
    (h : n < cutoff) : aic_weight e a b n cutoff = -1 := by
  simp [aic_weight, h]

lemma aic_weight_bounds (e : ℚ → ℚ) (he : ∀ x, 0 < e x) (a b : ℚ)
    (n cutoff : Nat) (h : cutoff ≤ n) :
    0 < aic_weight e a b n cutoff ∧ aic_weight e a b n cutoff ≤ 1 := by
  have ht := he (-(1 / 2) * (a - b))
  rw [aic_weight, if_neg (Nat.not_lt.mpr h)]
  constructor
  · positivity
  · rw [div_le_one (by linarith)]
    linarith

/-- Reduction of `fit_site` on a processed site, given the values returned
by the external calls. -/
lemma fit_site_spec (ext : Externals) (site : String) (abds : List Int)
    (cutoff : Nat) (pred : List Int) (p L1 : ℚ)
    (hcut : cutoff < abds.length)
    (hm : ext.get_mete_sad abds.length abds.sum = .ok (pred, p))
    (hls : ext.logser_ll (sortDesc abds) p = .ok L1)
    (hpln : ∀ a b l, ∃ v, ext.pln_ll a b l = .ok v) :
    ∃ L2, fit_site ext site abds cutoff = .ok (some
      (((sortDesc abds).zip pred).map
        (fun op => (⟨site, op.1, op.2⟩ : SpeciesLevelRow)),
       (⟨site, abds.length, abds.sum, p,
         aic_weight ext.exp (AICc 1 L1 (abds.length : ℚ))
           (AICc 2 L2 (abds.length : ℚ)) abds.length 4⟩ : SiteLevelRow))) := by
  obtain ⟨L2, hpln'⟩ := hpln
    (((sortDesc abds).map ext.log).sum / (abds.length : ℚ))
    (ext.sqrt ((((sortDesc abds).map ext.log).map
      (fun x =>
        (x - ((sortDesc abds).map ext.log).sum / (abds.length : ℚ)) ^ 2)).sum
        / (abds.length : ℚ)))
    (sortDesc abds)
  refine ⟨L2, ?_⟩
  simp only [List.map_map] at hpln'
  simp [fit_site, hcut, hm, hls, hpln']

/-- The observed column of the emitted species rows is the descending
abundance list (when the predicted list is long enough). -/
lemma rows_map_obs (site : String) (subab pred : List Int)
    (h : subab.length ≤ pred.length) :
    (((subab.zip pred).map
      (fun op => (⟨site, op.1, op.2⟩ : SpeciesLevelRow))).map
        (fun r => r.obs)) = subab := by
  rw [List.map_map]
  exact List.map_fst_zip subab pred h

/-- The predicted column of the emitted species rows is the predictor's
list, verbatim (when lengths agree). -/
lemma rows_map_pred (site : String) (subab pred : List Int)
    (h : pred.length ≤ subab.length) :
    (((subab.zip pred).map
      (fun op => (⟨site, op.1, op.2⟩ : SpeciesLevelRow))).map
        (fun r => r.pred)) = pred := by
  rw [List.map_map]
  exact List.map_snd_zip subab pred h

/-- Concrete external collaborators used by witnesses: the predictor
returns the descending list `[S, S-1, …, 1]` of length `S`. -/
def extW : Externals where
  get_mete_sad := fun S _ =>
    .ok ((List.range S).map (fun (i : Nat) => ((S : Int) - (i : Int))), 1 / 2)
  logser_ll := fun _ _ => .ok (-20)
  pln_ll := fun _ _ _ => .ok (-21)
  log := fun _ => 0
  sqrt := fun _ => 0
  exp := fun _ => 1

lemma extW_len : ∀ (S : Nat) (N : Int) (pr : List Int) (q : ℚ),
    extW.get_mete_sad S N = .ok (pr, q) → pr.length = S := by
  intro S N pr q h
  have h1 : ((List.range S).map (fun (i : Nat) => ((S : Int) - (i : Int))), (1 / 2 : ℚ)) = (pr, q) :=
    Except.ok.inj h
  obtain ⟨h2, -⟩ := Prod.mk.inj h1
  rw [← h2, List.length_map, List.length_range]

/-! ## Claims -/

/-- C2: for every site whose richness `S = abds.length` is at most the
cutoff, `fit_site` produces no species-level rows and no site-level row:
the result is `.ok none`, a silent skip, not an error. -/
theorem c2_fit_site_skip (ext : Externals) (site : String) (abds : List Int)
    (cutoff : Nat) (h : abds.length ≤ cutoff) :
    fit_site ext site abds cutoff = .ok none := by
  simp [fit_site, Nat.not_lt.mpr h]

theorem c2_fit_site_skip_witness :
    ([4, 7, 2] : List Int).length ≤ 9 ∧
      fit_site extW "A" [4, 7, 2] 9 = .ok none :=
  ⟨by decide, c2_fit_site_skip extW "A" [4, 7, 2] 9 (by decide)⟩

/-- C5: for every cutoff above 2 and every site passing the cutoff check
(`cutoff < S`), the AICc denominator `S − k − 1` is strictly positive for
both `k = 1` (log-series) and `k = 2` (log-normal), so the division in
`AICc` is well-defined for both calls the fitter makes. -/
theorem c5_aicc_denom_pos (cutoff S : Nat) (hc : 2 < cutoff)
    (hS : cutoff < S) :
    0 < AICc_denom 1 (S : ℚ) ∧ 0 < AICc_denom 2 (S : ℚ) := by
  have h4 : 4 ≤ S := by omega
  have h4q : (4 : ℚ) ≤ (S : ℚ) := by exact_mod_cast h4
  constructor <;> · unfold AICc_denom; linarith

theorem c5_aicc_denom_pos_witness :
    (2 < 3 ∧ 3 < 4) ∧
      (0 < AICc_denom 1 ((4 : Nat) : ℚ) ∧ 0 < AICc_denom 2 ((4 : Nat) : ℚ)) :=
  ⟨by decide, c5_aicc_denom_pos 3 4 (by decide) (by decide)⟩

/-- A malformed row cannot be parsed. -/
lemma parseRecord_malformed (row : List String)
    (h : malformedRow row = true) : ∃ e, parseRecord row = .error e := by
  rcases row with _ | ⟨a, _ | ⟨b, _ | ⟨c, _ | ⟨d, _ | ⟨e', rest⟩⟩⟩⟩⟩
  · exact ⟨_, rfl⟩
  · exact ⟨_, rfl⟩
  · exact ⟨_, rfl⟩
  · exact ⟨_, rfl⟩
  · simp only [malformedRow, Bool.or_eq_true, Option.isNone_iff_eq_none] at h
    rcases hb : intOfString b with _ | y
    · refine ⟨.badField [a, b, c, d], ?_⟩
      simp [parseRecord, hb]
    · rcases hd : intOfString d with _ | z
      · refine ⟨.badField [a, b, c, d], ?_⟩
        simp [parseRecord, hb, hd]
      · rcases h with h | h <;> simp_all
  · exact ⟨_, rfl⟩

/-- A malformed row anywhere in the input makes the load fail. -/
lemma load_err (input : List (List String)) (row : List String)
    (hmem : row ∈ input) (h : malformedRow row = true) :
    ∃ e, load input = .error e := by
  induction input with
  | nil => cases hmem
  | cons r rest ih =>
    rcases hpr : parseRecord r with e | v
    · exact ⟨e, by simp [load, hpr]⟩
    · rcases List.mem_cons.mp hmem with rfl | hmem'
      · obtain ⟨e, he⟩ := parseRecord_malformed row h
        rw [hpr] at he
        cases he
      · obtain ⟨e, he⟩ := ih hmem'
        exact ⟨e, by simp [load, hpr, he]⟩

/-- C7: any input row with the wrong column count or a non-integer
year/abundance field makes the loader fail with a `ParseError`, and the
whole pipeline aborts with that error before any output row is produced
(the error result carries no rows). -/
theorem c7_malformed_input_aborts (ext : Externals)
    (input : List (List String)) (cutoff : Nat) (row : List String)
    (hmem : row ∈ input) (h : malformedRow row = true) :
    ∃ e, run_pipeline ext input cutoff = .error e := by
  obtain ⟨e, he⟩ := load_err input row hmem h
  exact ⟨e, by simp [run_pipeline, he]⟩

theorem c7_malformed_input_aborts_witness :
    (["A", "2000", "x", "oops"] ∈ [["A", "2000", "x", "oops"]] ∧
      malformedRow ["A", "2000", "x", "oops"] = true) ∧
    ∃ e, run_pipeline extW [["A", "2000", "x", "oops"]] 9 = .error e :=
  ⟨⟨by decide, by decide⟩,
    c7_malformed_input_aborts extW [["A", "2000", "x", "oops"]] 9
      ["A", "2000", "x", "oops"] (by decide) (by decide)⟩

/-- The end-to-end scenario input: one site `A` with abundances
`[1,1,2,5,10,20,3,4,6,11]`. -/
def inputA : List (List String) :=
  [["A", "2000", "s1", "1"], ["A", "2000", "s2", "1"], ["A", "2000", "s3", "2"],
   ["A", "2000", "s4", "5"], ["A", "2000", "s5", "10"], ["A", "2000", "s6", "20"],
   ["A", "2000", "s7", "3"], ["A", "2000", "s8", "4"], ["A", "2000", "s9", "6"],
   ["A", "2000", "s10", "11"]]

/-- The records `inputA` loads to. -/
def recsA : List AbundanceRecord :=
  [⟨"A", 2000, "s1", 1⟩, ⟨"A", 2000, "s2", 1⟩, ⟨"A", 2000, "s3", 2⟩,
   ⟨"A", 2000, "s4", 5⟩, ⟨"A", 2000, "s5", 10⟩, ⟨"A", 2000, "s6", 20⟩,
   ⟨"A", 2000, "s7", 3⟩, ⟨"A", 2000, "s8", 4⟩, ⟨"A", 2000, "s9", 6⟩,
   ⟨"A", 2000, "s10", 11⟩]

/-- C8: end-to-end on an input with exactly one site `A` with abundances
`[1,1,2,5,10,20,3,4,6,11]` and the default cutoff `9`, the pipeline emits
exactly one site-level row for `A` with `S = 10`, `N = 63` and weight in
`[0, 1]`, and exactly ten species-level rows whose observed column is
`[20,11,10,6,5,4,3,2,1,1]` — for any external collaborators meeting their
contracts. -/
theorem c8_end_to_end (ext : Externals) (pred : List Int) (p L1 : ℚ)
    (hm : ext.get_mete_sad 10 63 = .ok (pred, p))
    (hplen : pred.length = 10)
    (hls : ext.logser_ll [20, 11, 10, 6, 5, 4, 3, 2, 1, 1] p = .ok L1)
    (hpln : ∀ a b l, ∃ v, ext.pln_ll a b l = .ok v)
    (hexp : ∀ x, 0 < ext.exp x) :
    ∃ rows srow, run_pipeline ext inputA 9 = .ok (rows, [srow], none) ∧
      rows.length = 10 ∧
      rows.map (fun r => r.obs) = [20, 11, 10, 6, 5, 4, 3, 2, 1, 1] ∧
      srow.site = "A" ∧ srow.S = 10 ∧ srow.N = 63 ∧
      0 ≤ srow.weight ∧ srow.weight ≤ 1 := by
  have habds : siteAbs recsA "A" = [1, 1, 2, 5, 10, 20, 3, 4, 6, 11] := rfl
  have hsort : sortDesc [1, 1, 2, 5, 10, 20, 3, 4, 6, 11] =
      [20, 11, 10, 6, 5, 4, 3, 2, 1, 1] := by decide
  have hm' : ext.get_mete_sad ([1, 1, 2, 5, 10, 20, 3, 4, 6, 11] : List Int).length
      ([1, 1, 2, 5, 10, 20, 3, 4, 6, 11] : List Int).sum = .ok (pred, p) := hm
  have hls' : ext.logser_ll (sortDesc [1, 1, 2, 5, 10, 20, 3, 4, 6, 11]) p = .ok L1 := by
    rw [hsort]; exact hls
  obtain ⟨L2, hfit⟩ := fit_site_spec ext "A" [1, 1, 2, 5, 10, 20, 3, 4, 6, 11] 9
    pred p L1 (by decide) hm' hls' hpln
  have hload : load inputA = .ok recsA := by rfl
  have husites : usites recsA = ["A"] := by rfl
  have hpipe : run_pipeline ext inputA 9 =
      .ok (run_test ext recsA 9) := by
    unfold run_pipeline
    rw [hload]
  have hrun : run_test ext recsA 9 =
      ((((sortDesc [1, 1, 2, 5, 10, 20, 3, 4, 6, 11]).zip pred).map
          (fun op => (⟨"A", op.1, op.2⟩ : SpeciesLevelRow))),
        [⟨"A", ([1, 1, 2, 5, 10, 20, 3, 4, 6, 11] : List Int).length,
          ([1, 1, 2, 5, 10, 20, 3, 4, 6, 11] : List Int).sum, p,
          aic_weight ext.exp
            (AICc 1 L1 (([1, 1, 2, 5, 10, 20, 3, 4, 6, 11] : List Int).length : ℚ))
            (AICc 2 L2 (([1, 1, 2, 5, 10, 20, 3, 4, 6, 11] : List Int).length : ℚ))
            ([1, 1, 2, 5, 10, 20, 3, 4, 6, 11] : List Int).length 4⟩], none) := by
    unfold run_test
    rw [husites]
    unfold runSites
    rw [habds, hfit]
    simp [runSites]
  have hoble : (sortDesc [1, 1, 2, 5, 10, 20, 3, 4, 6, 11]).length ≤ pred.length := by
    rw [sortDesc_length, hplen]
    decide
  have hw := aic_weight_bounds ext.exp hexp
    (AICc 1 L1 (([1, 1, 2, 5, 10, 20, 3, 4, 6, 11] : List Int).length : ℚ))
    (AICc 2 L2 (([1, 1, 2, 5, 10, 20, 3, 4, 6, 11] : List Int).length : ℚ))
    ([1, 1, 2, 5, 10, 20, 3, 4, 6, 11] : List Int).length 4 (by decide)
  refine ⟨((sortDesc [1, 1, 2, 5, 10, 20, 3, 4, 6, 11]).zip pred).map
      (fun op => (⟨"A", op.1, op.2⟩ : SpeciesLevelRow)),
    ⟨"A", ([1, 1, 2, 5, 10, 20, 3, 4, 6, 11] : List Int).length,
      ([1, 1, 2, 5, 10, 20, 3, 4, 6, 11] : List Int).sum, p,
      aic_weight ext.exp
        (AICc 1 L1 (([1, 1, 2, 5, 10, 20, 3, 4, 6, 11] : List Int).length : ℚ))
        (AICc 2 L2 (([1, 1, 2, 5, 10, 20, 3, 4, 6, 11] : List Int).length : ℚ))
        ([1, 1, 2, 5, 10, 20, 3, 4, 6, 11] : List Int).length 4⟩,
    ?_, ?_, ?_, rfl, rfl, rfl, le_of_lt hw.1, hw.2⟩
  · rw [hpipe, hrun]
  · rw [List.length_map, List.length_zip, sortDesc_length, hplen]
    decide
  · rw [rows_map_obs "A" (sortDesc [1, 1, 2, 5, 10, 20, 3, 4, 6, 11]) pred hoble, hsort]

theorem c8_end_to_end_witness :
    extW.get_mete_sad 10 63 =
      .ok ((List.range 10).map (fun (i : Nat) => ((10 : Int) - (i : Int))), 1 / 2) ∧
    ∃ rows srow, run_pipeline extW inputA 9 = .ok (rows, [srow], none) ∧
      rows.length = 10 ∧
      rows.map (fun r => r.obs) = [20, 11, 10, 6, 5, 4, 3, 2, 1, 1] ∧
      srow.site = "A" ∧ srow.S = 10 ∧ srow.N = 63 ∧
      0 ≤ srow.weight ∧ srow.weight ≤ 1 :=
  ⟨rfl, c8_end_to_end extW
    ((List.range 10).map (fun (i : Nat) => ((10 : Int) - (i : Int)))) (1 / 2) (-20)
    rfl (by decide) rfl (fun _ _ _ => ⟨-21, rfl⟩) (fun _ => one_pos)⟩

/-- C9: the per-abundance-class count, applied per site to
predicted `[20,1,1,3]` and observed `[15,1,2,4]`, gives singleton counts
`2` (predicted) and `1` (observed), and dominant values `20` (predicted)
and `15` (observed). -/
theorem c9_abundance_class_counts :
    rare_sp_count_site "singleton" [20, 1, 1, 3] [15, 1, 2, 4] = some (2, 1) ∧
      rare_sp_count_site "dominant" [20, 1, 1, 3] [15, 1, 2, 4] = some (20, 15) := by
  decide

/-- C10: for every abundance-class string outside
`singleton`/`doubleton`/`dominant`/`rare`, `rare_sp_count` fails as soon as
there is a site group (the Python dispatch never assigns the per-class
count variables, so the first iteration raises): the string dispatch is not
total. -/
theorem c10_unknown_class_fails (c : String) (rows : List SpeciesLevelRow)
    (h1 : c ≠ "singleton") (h2 : c ≠ "doubleton") (h3 : c ≠ "dominant")
    (h4 : c ≠ "rare") (hne : rows ≠ []) :
    rare_sp_count c rows = none := by
  have hsite : ∀ pred obs, rare_sp_count_site c pred obs = none := by
    intro pred obs
    unfold rare_sp_count_site
    rw [if_neg h1, if_neg h2, if_neg h3, if_neg h4]
  have husites : rare_usites rows ≠ [] := by
    unfold rare_usites
    simp [List.dedup_eq_nil]
    exact hne
  unfold rare_sp_count
  cases hu : rare_usites rows with
  | nil => exact absurd hu husites
  | cons u rest => simp [rareLoop, hsite]

/-- C1: for every site whose richness `S = abds.length` exceeds the cutoff
(and whose external calls succeed with the documented contract
`pred.length = S`), `fit_site` emits exactly `S` species-level rows and
exactly one site-level row (the single `srow`), the observed column of
those rows is sorted in descending order, and as a multiset it equals the
site's input abundances. -/
theorem c1_fit_site_rows (ext : Externals) (site : String) (abds : List Int)
    (cutoff : Nat) (pred : List Int) (p L1 : ℚ)
    (hcut : cutoff < abds.length)
    (hm : ext.get_mete_sad abds.length abds.sum = .ok (pred, p))
    (hplen : pred.length = abds.length)
    (hls : ext.logser_ll (sortDesc abds) p = .ok L1)
    (hpln : ∀ a b l, ∃ v, ext.pln_ll a b l = .ok v) :
    ∃ rows srow, fit_site ext site abds cutoff = .ok (some (rows, srow)) ∧
      rows.length = abds.length ∧
      (rows.map (fun r => r.obs)).Sorted (· ≥ ·) ∧
      (rows.map (fun r => r.obs)).Perm abds := by
  obtain ⟨L2, hfit⟩ := fit_site_spec ext site abds cutoff pred p L1 hcut hm hls hpln
  have hoble : (sortDesc abds).length ≤ pred.length :=
    le_of_eq ((sortDesc_length abds).trans hplen.symm)
  refine ⟨_, _, hfit, ?_, ?_, ?_⟩
  · rw [List.length_map, List.length_zip, sortDesc_length, hplen, Nat.min_self]
  · rw [rows_map_obs site (sortDesc abds) pred hoble]
    exact sortDesc_sorted abds
  · rw [rows_map_obs site (sortDesc abds) pred hoble]
    exact sortDesc_perm abds

theorem c1_fit_site_rows_witness :
    9 < ([3, 1, 4, 1, 5, 9, 2, 6, 5, 3, 5] : List Int).length ∧
    ∃ rows srow,
      fit_site extW "W" [3, 1, 4, 1, 5, 9, 2, 6, 5, 3, 5] 9 = .ok (some (rows, srow)) ∧
      rows.length = ([3, 1, 4, 1, 5, 9, 2, 6, 5, 3, 5] : List Int).length ∧
      (rows.map (fun r => r.obs)).Sorted (· ≥ ·) ∧
      (rows.map (fun r => r.obs)).Perm [3, 1, 4, 1, 5, 9, 2, 6, 5, 3, 5] :=
  ⟨by decide, c1_fit_site_rows extW "W" [3, 1, 4, 1, 5, 9, 2, 6, 5, 3, 5] 9
    ((List.range 11).map (fun (i : Nat) => ((11 : Int) - (i : Int)))) (1 / 2) (-20)
    (by decide) rfl (by decide) rfl (fun _ _ _ => ⟨-21, rfl⟩)⟩

/-- External collaborators whose predictor returns an ascending (not
descending) sequence, to exhibit that the fitter does not normalize. -/
def extAsc : Externals where
  get_mete_sad := fun _ _ => .ok ([1, 2], 1 / 2)
  logser_ll := fun _ _ => .ok (-20)
  pln_ll := fun _ _ _ => .ok (-21)
  log := fun _ => 0
  sqrt := fun _ => 0
  exp := fun _ => 1

/-- C3, counterexample: the claim says the predicted sequence returned by
the external predictor is normalized to descending order before being
paired with the observed column.  The code performs no such normalization:
with a predictor returning the ascending `[1, 2]` for a processed site, the
emitted predicted column is `[1, 2]`, which is not in descending order. -/
theorem c3_pred_not_normalized_counterexample :
    fit_site extAsc "A" [5, 7] 0 =
      .ok (some ([⟨"A", 7, 1⟩, ⟨"A", 5, 2⟩], ⟨"A", 2, 12, 1 / 2, -1⟩)) ∧
    ¬ (([⟨"A", 7, 1⟩, ⟨"A", 5, 2⟩] : List SpeciesLevelRow).map
        (fun r => r.pred)).Sorted (· ≥ ·) :=
  ⟨rfl, by decide⟩

/-- C3, amended: the fitter pairs the predictor's sequence with the
descending-sorted observed column verbatim, with no normalization; the
emitted predicted column therefore is in descending order exactly when the
predictor's output already is (which the predictor's documented contract
promises). -/
theorem c3_pred_column_verbatim (ext : Externals) (site : String)
    (abds : List Int) (cutoff : Nat) (pred : List Int) (p L1 : ℚ)
    (hcut : cutoff < abds.length)
    (hm : ext.get_mete_sad abds.length abds.sum = .ok (pred, p))
    (hplen : pred.length = abds.length)
    (hls : ext.logser_ll (sortDesc abds) p = .ok L1)
    (hpln : ∀ a b l, ∃ v, ext.pln_ll a b l = .ok v) :
    ∃ rows srow, fit_site ext site abds cutoff = .ok (some (rows, srow)) ∧
      rows.map (fun r => r.pred) = pred ∧
      (pred.Sorted (· ≥ ·) → (rows.map (fun r => r.pred)).Sorted (· ≥ ·)) := by
  obtain ⟨L2, hfit⟩ := fit_site_spec ext site abds cutoff pred p L1 hcut hm hls hpln
  have hmap := rows_map_pred site (sortDesc abds) pred
    (le_of_eq (hplen.trans (sortDesc_length abds).symm))
  exact ⟨_, _, hfit, hmap, fun hs => by rw [hmap]; exact hs⟩

theorem c3_pred_column_verbatim_witness :
    9 < ([2, 4, 6, 8, 10, 1, 3, 5, 7, 9] : List Int).length ∧
    ∃ rows srow,
      fit_site extW "V" [2, 4, 6, 8, 10, 1, 3, 5, 7, 9] 9 = .ok (some (rows, srow)) ∧
      rows.map (fun r => r.pred) =
        (List.range 10).map (fun (i : Nat) => ((10 : Int) - (i : Int))) ∧
      (((List.range 10).map (fun (i : Nat) => ((10 : Int) - (i : Int)))).Sorted (· ≥ ·) →
        (rows.map (fun r => r.pred)).Sorted (· ≥ ·)) :=
  ⟨by decide, c3_pred_column_verbatim extW "V" [2, 4, 6, 8, 10, 1, 3, 5, 7, 9] 9
    ((List.range 10).map (fun (i : Nat) => ((10 : Int) - (i : Int)))) (1 / 2) (-20)
    (by decide) rfl (by decide) rfl (fun _ _ _ => ⟨-21, rfl⟩)⟩

/-- External collaborators whose predictor fails exactly on total abundance
`N = 5` (site `A` of `recsAB` below) and succeeds elsewhere. -/
def extFail : Externals where
  get_mete_sad := fun _ N =>
    if N = 5 then .error "mete failed" else .ok ([3], 1 / 2)
  logser_ll := fun _ _ => .ok (-20)
  pln_ll := fun _ _ _ => .ok (-21)
  log := fun _ => 0
  sqrt := fun _ => 0
  exp := fun _ => 1

/-- Two one-record sites: `A` (abundance 5, on which `extFail`'s predictor
fails) and `B` (abundance 7, on which every external call succeeds). -/
def recsAB : List AbundanceRecord :=
  [⟨"A", 2000, "x", 5⟩, ⟨"B", 2000, "y", 7⟩]

/-- C4, counterexample: the claim says a predictor failure aborts only the
failing site and the run continues with the remaining sites.  With the
predictor failing on site `A` and succeeding on site `B`, the run stops at
`A` with no output at all — site `B` contributes nothing — even though
fitting `B` alone succeeds.  (The Python loop has no per-site handler; the
exception propagates out of `run_test`, and no diagnostic naming the site
is emitted.) -/
theorem c4_site_failure_counterexample :
    run_test extFail recsAB 0 = ([], [], some "mete failed") ∧
    fit_site extFail "B" (siteAbs recsAB "B") 0 =
      .ok (some ([⟨"B", 7, 3⟩], ⟨"B", 1, 7, 1 / 2, -1⟩)) :=
  ⟨rfl, rfl⟩

/-- If some site's external calls fail, the whole run aborts: the error
field of the result is set. -/
lemma runSites_aborts (ext : Externals) (records : List AbundanceRecord)
    (cutoff : Nat) :
    ∀ sites : List String,
      (∃ u ∈ sites, ∃ e, fit_site ext u (siteAbs records u) cutoff = .error e) →
      (runSites ext records cutoff sites).2.2 ≠ none := by
  intro sites
  induction sites with
  | nil =>
    rintro ⟨u, hu, -⟩
    cases hu
  | cons u rest ih =>
    rintro ⟨v, hv, e, he⟩
    rcases List.mem_cons.mp hv with rfl | hv'
    · simp [runSites, he]
    · rcases hfu : fit_site ext u (siteAbs records u) cutoff with e' | o
      · simp [runSites, hfu]
      · rcases o with _ | ⟨r1, r2⟩
        · simpa [runSites, hfu] using ih ⟨v, hv', e, he⟩
        · simpa [runSites, hfu] using ih ⟨v, hv', e, he⟩

/-- C4, amended: when the external predictor or a likelihood function fails
for one site, the failure aborts the entire run at that site (the run's
result carries the error and the run does not complete normally); the
remaining sites are not processed and no per-site diagnostic is emitted. -/
theorem c4_failure_aborts_run (ext : Externals)
    (records : List AbundanceRecord) (cutoff : Nat)
    (h : ∃ u ∈ usites records, ∃ e,
      fit_site ext u (siteAbs records u) cutoff = .error e) :
    (run_test ext records cutoff).2.2 ≠ none :=
  runSites_aborts ext records cutoff (usites records) h

theorem c4_failure_aborts_run_witness :
    "A" ∈ usites recsAB ∧ (run_test extFail recsAB 0).2.2 ≠ none :=
  ⟨by decide,
    c4_failure_aborts_run extFail recsAB 0 ⟨"A", by decide, "mete failed", rfl⟩⟩

/-- C6: for every processed site (richness above the main cutoff, external
calls succeeding, and a positive exponential), the emitted site-level
weight is the sentinel `-1` exactly when the richness `S = abds.length` is
below the weight-validity cutoff `4` hard-coded at the `aic_weight` call;
otherwise it lies in `[0, 1]`. -/
theorem c6_weight_sentinel_or_unit (ext : Externals) (site : String)
    (abds : List Int) (cutoff : Nat) (pred : List Int) (p L1 : ℚ)
    (hcut : cutoff < abds.length)
    (hm : ext.get_mete_sad abds.length abds.sum = .ok (pred, p))
    (hls : ext.logser_ll (sortDesc abds) p = .ok L1)
    (hpln : ∀ a b l, ∃ v, ext.pln_ll a b l = .ok v)
    (hexp : ∀ x, 0 < ext.exp x) :
    ∃ rows srow, fit_site ext site abds cutoff = .ok (some (rows, srow)) ∧
      (srow.weight = -1 ↔ abds.length < 4) ∧
      (4 ≤ abds.length → 0 ≤ srow.weight ∧ srow.weight ≤ 1) := by
  obtain ⟨L2, hfit⟩ := fit_site_spec ext site abds cutoff pred p L1 hcut hm hls hpln
  refine ⟨_, _, hfit, ?_, ?_⟩
  · show aic_weight _ _ _ _ 4 = -1 ↔ _
    constructor
    · intro hw
      by_contra hnot
      push_neg at hnot
      obtain ⟨hpos, -⟩ := aic_weight_bounds ext.exp hexp _ _ _ 4 hnot
      rw [hw] at hpos
      norm_num at hpos
    · intro h4
      exact aic_weight_sentinel _ _ _ _ 4 h4
  · intro h4
    show 0 ≤ aic_weight _ _ _ _ 4 ∧ aic_weight _ _ _ _ 4 ≤ 1
    obtain ⟨h0, h1⟩ := aic_weight_bounds ext.exp hexp _ _ _ 4 h4
    exact ⟨le_of_lt h0, h1⟩

theorem c6_weight_sentinel_or_unit_witness :
    0 < ([2, 3, 4] : List Int).length ∧
    ∃ rows srow, fit_site extW "U" [2, 3, 4] 0 = .ok (some (rows, srow)) ∧
      (srow.weight = -1 ↔ ([2, 3, 4] : List Int).length < 4) ∧
      (4 ≤ ([2, 3, 4] : List Int).length →
        0 ≤ srow.weight ∧ srow.weight ≤ 1) :=
  ⟨by decide, c6_weight_sentinel_or_unit extW "U" [2, 3, 4] 0
    ((List.range 3).map (fun (i : Nat) => ((3 : Int) - (i : Int)))) (1 / 2) (-20)
    (by decide) rfl rfl (fun _ _ _ => ⟨-21, rfl⟩) (fun _ => one_pos)⟩

theorem c10_unknown_class_fails_witness :
    ("frequent" ≠ "singleton" ∧ ([⟨"A", 1, 2⟩] : List SpeciesLevelRow) ≠ []) ∧
      rare_sp_count "frequent" [⟨"A", 1, 2⟩] = none :=
  ⟨⟨by decide, by simp⟩,
    c10_unknown_class_fails "frequent" [⟨"A", 1, 2⟩] (by decide) (by decide)
      (by decide) (by decide) (by simp)⟩
